import Mathlib

/-!
Verification of the `regressao_linear` library (src/src/lib.rs): an
ordinary-least-squares linear-regression core with goodness-of-fit metrics,
descriptive statistics and forward projections.

The embedding models `f64` values as exact rationals (ℚ): every arithmetic
operation of the source is translated operation for operation, with
`f64::EPSILON` rendered as `1 / 2 ^ 52` and `f64::sqrt` as a fixed function
`fsqrt` (the properties proved about `fsqrt` are by-construction field
equalities whose truth does not depend on its interpretation).  Sequences
are `List ℚ`; fallible functions return `Except RegressaoError`.
-/

/-- The error enum `RegressaoError` from src/src/lib.rs. -/
inductive RegressaoError where
  | DadosInsuficientes
  | DadosVazios
  | VarianciaZero
  | TamanhosDiferentes
deriving DecidableEq, Repr

/-- The aggregate regression result `ResultadoRegressao` from src/src/lib.rs. -/
structure ResultadoRegressao where
  inclinacao : ℚ
  intercepto : ℚ
  r_quadrado : ℚ
  mse : ℚ
  rmse : ℚ
  mae : ℚ
  valores_previstos : List ℚ
deriving DecidableEq, Repr

/-- The descriptive-statistics aggregate `EstatisticasDescritivas` from src/src/lib.rs. -/
structure EstatisticasDescritivas where
  media : ℚ
  mediana : ℚ
  desvio_padrao : ℚ
  variancia : ℚ
  minimo : ℚ
  maximo : ℚ
  amplitude : ℚ
deriving DecidableEq, Repr

/-- The double-precision machine epsilon `f64::EPSILON`, that is `2⁻⁵²`, as a rational. -/
def eps : ℚ := 1 / 2 ^ 52

/-- Model of `f64::sqrt` in the exact-rational embedding.  It is used only in
the by-construction equalities `rmse = fsqrt mse` and
`desvio_padrao = fsqrt variancia`, which hold for any choice of this
function; a rational approximation keeps it computable. -/
def fsqrt (q : ℚ) : ℚ := (Nat.sqrt q.num.toNat : ℚ) / (Nat.sqrt q.den : ℚ)

/-- The arithmetic mean `x.iter().sum::<f64>() / n` of a sequence
(`media_x`, `media_y` in `regressao_linear_xy`, `media` in
`calcular_estatisticas`, `media_y` in `calcular_r2`). -/
def media (l : List ℚ) : ℚ := l.sum / l.length

/-- The accumulator `soma_xx` of `regressao_linear_xy`: the loop
`soma_xx += diff_x * diff_x` over `i in 0..x.len()` with
`diff_x = x[i] - media_x`. -/
def sxx (x : List ℚ) : ℚ :=
  x.foldl (fun acc xi => acc + (xi - media x) * (xi - media x)) 0

/-- The accumulator `soma_xy` of `regressao_linear_xy`: the loop
`soma_xy += diff_x * diff_y` over `i in 0..x.len()` (lengths are equal when
the loop runs, so pairing by `zip` matches the indexed access). -/
def sxy (x y : List ℚ) : ℚ :=
  (x.zip y).foldl (fun acc p => acc + (p.1 - media x) * (p.2 - media y)) 0

/-- Embedding of `regressao_linear_xy` from src/src/lib.rs lines 106-146: checks
empty → length mismatch → insufficient data, accumulates the centered sums,
rejects `|soma_xx| < f64::EPSILON` as zero variance, and otherwise returns
`(soma_xy / soma_xx, media_y - inclinacao * media_x)`. -/
def regressao_linear_xy (x y : List ℚ) : Except RegressaoError (ℚ × ℚ) :=
  if x = [] ∨ y = [] then .error .DadosVazios
  else if x.length ≠ y.length then .error .TamanhosDiferentes
  else if x.length < 2 then .error .DadosInsuficientes
  else
    let media_x := media x
    let media_y := media y
    let soma_xy := sxy x y
    let soma_xx := sxx x
    if |soma_xx| < eps then .error .VarianciaZero
    else
      let inclinacao := soma_xy / soma_xx
      let intercepto := media_y - inclinacao * media_x
      .ok (inclinacao, intercepto)

/-- The synthesized index sequence `(0..y.len()).map(|i| i as f64)` of
`regressao_linear`. -/
def indices (n : ℕ) : List ℚ := (List.range n).map (fun i : ℕ => (i : ℚ))

/-- Embedding of `regressao_linear` from src/src/lib.rs lines 83-95: the series fit with
implicit indices; checks emptiness and `len < 2` on `y` and delegates to
`regressao_linear_xy`. -/
def regressao_linear (y : List ℚ) : Except RegressaoError (ℚ × ℚ) :=
  if y = [] then .error .DadosVazios
  else if y.length < 2 then .error .DadosInsuficientes
  else regressao_linear_xy (indices y.length) y

/-- The accumulator `ss_tot` of `calcular_r2`:
`ss_tot += (y_real[i] - media_y).powi(2)`. -/
def ss_tot (y_real : List ℚ) : ℚ :=
  y_real.foldl (fun acc yi => acc + (yi - media y_real) ^ 2) 0

/-- The accumulator `ss_res` of `calcular_r2`:
`ss_res += (y_real[i] - y_previsto[i]).powi(2)` (lengths are equal when the
loop runs, so pairing by `zip` matches the indexed access). -/
def ss_res (y_real y_previsto : List ℚ) : ℚ :=
  (y_real.zip y_previsto).foldl (fun acc p => acc + (p.1 - p.2) ^ 2) 0

/-- Embedding of `calcular_r2` from src/src/lib.rs lines 175-199. -/
def calcular_r2 (y_real y_previsto : List ℚ) : Except RegressaoError ℚ :=
  if y_real = [] ∨ y_previsto = [] then .error .DadosVazios
  else if y_real.length ≠ y_previsto.length then .error .TamanhosDiferentes
  else if |ss_tot y_real| < eps then .error .VarianciaZero
  else .ok (1 - ss_res y_real y_previsto / ss_tot y_real)

/-- Embedding of `calcular_mse` from src/src/lib.rs lines 202-217. -/
def calcular_mse (y_real y_previsto : List ℚ) : Except RegressaoError ℚ :=
  if y_real = [] ∨ y_previsto = [] then .error .DadosVazios
  else if y_real.length ≠ y_previsto.length then .error .TamanhosDiferentes
  else .ok (((y_real.zip y_previsto).map (fun p => (p.1 - p.2) ^ 2)).sum / y_real.length)

/-- Embedding of `calcular_mae` from src/src/lib.rs lines 220-235. -/
def calcular_mae (y_real y_previsto : List ℚ) : Except RegressaoError ℚ :=
  if y_real = [] ∨ y_previsto = [] then .error .DadosVazios
  else if y_real.length ≠ y_previsto.length then .error .TamanhosDiferentes
  else .ok (((y_real.zip y_previsto).map (fun p => |p.1 - p.2|)).sum / y_real.length)

/-- Embedding of `prever_valores` from src/src/lib.rs lines 238-242:
`(inicio..inicio + n_valores).map(|x| inclinacao * x as f64 + intercepto)`. -/
def prever_valores (inicio n_valores : ℕ) (inclinacao intercepto : ℚ) : List ℚ :=
  (List.range' inicio n_valores).map (fun x : ℕ => inclinacao * (x : ℚ) + intercepto)

/-- Embedding of `ResultadoRegressao::prever` from src/src/lib.rs lines 48-52. -/
def ResultadoRegressao.prever (r : ResultadoRegressao) (x_valores : List ℚ) : List ℚ :=
  x_valores.map (fun x => r.inclinacao * x + r.intercepto)

/-- Embedding of `ResultadoRegressao::prever_proximos_periodos` from src/src/lib.rs lines
55-59: `(inicio..inicio + n_periodos).map(|x| self.inclinacao * x as f64 + self.intercepto)`. -/
def ResultadoRegressao.prever_proximos_periodos
    (r : ResultadoRegressao) (inicio n_periodos : ℕ) : List ℚ :=
  (List.range' inicio n_periodos).map (fun x : ℕ => r.inclinacao * (x : ℚ) + r.intercepto)

/-- Embedding of `analise_completa` from src/src/lib.rs lines 149-172: fit, build the
predicted values by the implicit-index formula, then compute R², MSE,
RMSE = sqrt(MSE) and MAE, propagating each error with `?`. -/
def analise_completa (y : List ℚ) : Except RegressaoError ResultadoRegressao :=
  match regressao_linear y with
  | .error e => .error e
  | .ok (inclinacao, intercepto) =>
    let valores_previstos := (List.range y.length).map
      (fun x : ℕ => inclinacao * (x : ℚ) + intercepto)
    match calcular_r2 y valores_previstos with
    | .error e => .error e
    | .ok r_quadrado =>
      match calcular_mse y valores_previstos with
      | .error e => .error e
      | .ok mse =>
        match calcular_mae y valores_previstos with
        | .error e => .error e
        | .ok mae =>
          .ok { inclinacao, intercepto, r_quadrado, mse, rmse := fsqrt mse, mae,
                valores_previstos }

/-- Embedding of `calcular_estatisticas` from src/src/lib.rs lines 271-307: mean, median
over a sorted copy, population variance, standard deviation, min/max from
the sorted copy's ends, and range. -/
def calcular_estatisticas (dados : List ℚ) : Except RegressaoError EstatisticasDescritivas :=
  if dados = [] then .error .DadosVazios
  else
    let n : ℚ := dados.length
    let media := dados.sum / n
    let dados_ordenados := dados.insertionSort (· ≤ ·)
    let mediana :=
      if dados_ordenados.length % 2 = 0 then
        let meio := dados_ordenados.length / 2
        (dados_ordenados.getD (meio - 1) 0 + dados_ordenados.getD meio 0) / 2
      else dados_ordenados.getD (dados_ordenados.length / 2) 0
    let variancia := (dados.map (fun x => (x - media) ^ 2)).sum / n
    let desvio_padrao := fsqrt variancia
    let minimo := dados_ordenados.getD 0 0
    let maximo := dados_ordenados.getD (dados_ordenados.length - 1) 0
    let amplitude := maximo - minimo
    .ok { media, mediana, desvio_padrao, variancia, minimo, maximo, amplitude }

/-! ### Helper lemmas -/

theorem foldl_add_eq_sum {α : Type} (g : α → ℚ) (l : List α) (c : ℚ) :
    l.foldl (fun acc x => acc + g x) c = c + (l.map g).sum := by
  induction l generalizing c with
  | nil => simp
  | cons a t ih => simp [ih]; ring

theorem sxx_eq_sum (x : List ℚ) :
    sxx x = (x.map (fun xi => (xi - media x) * (xi - media x))).sum := by
  simpa using foldl_add_eq_sum (fun xi => (xi - media x) * (xi - media x)) x 0

theorem ss_tot_eq_sum (y : List ℚ) :
    ss_tot y = (y.map (fun yi => (yi - media y) ^ 2)).sum := by
  simpa using foldl_add_eq_sum (fun yi => (yi - media y) ^ 2) y 0

theorem ss_res_self (l : List ℚ) : ss_res l l = 0 := by
  have key : ∀ c : ℚ, (l.zip l).foldl (fun acc p => acc + (p.1 - p.2) ^ 2) c = c := by
    induction l with
    | nil => intro c; rfl
    | cons a t ih => intro c; simp [List.zip_cons_cons, ih]
  simpa [ss_res] using key 0

theorem sum_map_range_cast (n : ℕ) :
    ((List.range n).map (fun i : ℕ => (i : ℚ))).sum = n * (n - 1) / 2 := by
  induction n with
  | zero => simp
  | succ m ih =>
    rw [List.range_succ, List.map_append, List.sum_append, ih]
    simp only [List.map_cons, List.map_nil, List.sum_cons, List.sum_nil]
    push_cast
    ring

theorem media_indices (n : ℕ) (h : n ≠ 0) : media (indices n) = ((n : ℚ) - 1) / 2 := by
  have hn : (n : ℚ) ≠ 0 := Nat.cast_ne_zero.mpr h
  simp only [media, indices, sum_map_range_cast, List.length_map, List.length_range]
  field_simp
  ring

theorem sq_dev_sum (m : ℚ) (n : ℕ) :
    ((List.range n).map (fun i : ℕ => ((i : ℚ) - m) * ((i : ℚ) - m))).sum =
      (n : ℚ) * ((n : ℚ) - 1) * (2 * (n : ℚ) - 1) / 6 - (n : ℚ) * ((n : ℚ) - 1) * m
        + (n : ℚ) * m ^ 2 := by
  induction n with
  | zero => simp
  | succ k ih =>
    rw [List.range_succ, List.map_append, List.sum_append, ih]
    simp only [List.map_cons, List.map_nil, List.sum_cons, List.sum_nil]
    push_cast
    ring

theorem sxx_indices (n : ℕ) (h : n ≠ 0) :
    sxx (indices n) = (n : ℚ) * ((n : ℚ) ^ 2 - 1) / 12 := by
  rw [sxx_eq_sum, media_indices n h]
  simp only [indices, List.map_map, Function.comp_def]
  rw [sq_dev_sum]
  ring

/-! ### Claim theorems -/

/-- C1: `regressao_linear_xy` fails with `DadosVazios` when either input is
empty; otherwise with `TamanhosDiferentes` when the lengths differ; otherwise
with `DadosInsuficientes` when the common length is below 2; otherwise with
`VarianciaZero` exactly when `|soma_xx| < f64::EPSILON` (an absolute
tolerance); and succeeds in every remaining case, the checks applied in that
order. -/
theorem regressao_linear_xy_error_order (x y : List ℚ) :
    ((x = [] ∨ y = []) → regressao_linear_xy x y = .error .DadosVazios) ∧
    (x ≠ [] → y ≠ [] → x.length ≠ y.length →
      regressao_linear_xy x y = .error .TamanhosDiferentes) ∧
    (x ≠ [] → y ≠ [] → x.length = y.length → x.length < 2 →
      regressao_linear_xy x y = .error .DadosInsuficientes) ∧
    (x ≠ [] → y ≠ [] → x.length = y.length → 2 ≤ x.length → |sxx x| < eps →
      regressao_linear_xy x y = .error .VarianciaZero) ∧
    (x ≠ [] → y ≠ [] → x.length = y.length → 2 ≤ x.length → eps ≤ |sxx x| →
      ∃ p, regressao_linear_xy x y = .ok p) := by
  refine ⟨?_, ?_, ?_, ?_, ?_⟩
  · intro h
    simp only [regressao_linear_xy, if_pos h]
  · intro hx hy hlen
    simp only [regressao_linear_xy]
    rw [if_neg (by simp [hx, hy]), if_pos hlen]
  · intro hx hy hlen hlt
    simp only [regressao_linear_xy]
    rw [if_neg (by simp [hx, hy]), if_neg (by omega), if_pos hlt]
  · intro hx hy hlen h2 heps
    simp only [regressao_linear_xy]
    rw [if_neg (by simp [hx, hy]), if_neg (by omega), if_neg (by omega), if_pos heps]
  · intro hx hy hlen h2 heps
    have h : regressao_linear_xy x y =
        .ok (sxy x y / sxx x, media y - sxy x y / sxx x * media x) := by
      simp only [regressao_linear_xy]
      rw [if_neg (by simp [hx, hy]), if_neg (by omega), if_neg (by omega),
        if_neg (not_lt.mpr heps)]
    exact ⟨_, h⟩

/-- Witness for C1: each branch of the error order exercised on a concrete
input. -/
theorem regressao_linear_xy_error_order_witness :
    regressao_linear_xy [] [1] = .error .DadosVazios ∧
    regressao_linear_xy [1, 2] [1, 2, 3] = .error .TamanhosDiferentes ∧
    regressao_linear_xy [1] [2] = .error .DadosInsuficientes ∧
    regressao_linear_xy [5, 5, 5] [1, 2, 3] = .error .VarianciaZero ∧
    ∃ p, regressao_linear_xy [1, 2] [3, 4] = .ok p := by
  refine ⟨?_, ?_, ?_, ?_, ?_⟩
  · exact (regressao_linear_xy_error_order [] [1]).1 (Or.inl rfl)
  · exact (regressao_linear_xy_error_order [1, 2] [1, 2, 3]).2.1
      (by simp) (by simp) (by simp)
  · exact (regressao_linear_xy_error_order [1] [2]).2.2.1
      (by simp) (by simp) (by simp) (by simp)
  · exact (regressao_linear_xy_error_order [5, 5, 5] [1, 2, 3]).2.2.2.1
      (by simp) (by simp) (by simp) (by simp) (by norm_num [sxx, media, eps])
  · exact (regressao_linear_xy_error_order [1, 2] [3, 4]).2.2.2.2
      (by simp) (by simp) (by simp) (by simp)
      (by rw [show sxx [1, 2] = 1 / 2 by norm_num [sxx, media],
            abs_of_pos (by norm_num)]
          norm_num [eps])

/-- C2: whenever `regressao_linear_xy` succeeds, the returned slope is
`soma_xy / soma_xx` and the intercept is `media_y - slope * media_x`, with
the centered sums and means as accumulated by the source. -/
theorem regressao_linear_xy_coefficients (x y : List ℚ) (a b : ℚ)
    (h : regressao_linear_xy x y = .ok (a, b)) :
    a = sxy x y / sxx x ∧ b = media y - (sxy x y / sxx x) * media x := by
  simp only [regressao_linear_xy] at h
  split_ifs at h
  simp only [Except.ok.injEq, Prod.mk.injEq] at h
  exact ⟨h.1.symm, h.2.symm⟩

/-- Witness for C2: the fit on `x = [1, 2]`, `y = [3, 4]` returns slope 1 and
intercept 2, which match the centered-sum formulas. -/
theorem regressao_linear_xy_coefficients_witness :
    (1 : ℚ) = sxy [1, 2] [3, 4] / sxx [1, 2] ∧
    (2 : ℚ) = media [3, 4] - (sxy [1, 2] [3, 4] / sxx [1, 2]) * media [1, 2] := by
  refine regressao_linear_xy_coefficients [1, 2] [3, 4] 1 2 ?_
  have hxx : sxx [1, 2] = 1 / 2 := by norm_num [sxx, media]
  have hxy : sxy [1, 2] [3, 4] = 1 / 2 := by norm_num [sxy, media]
  simp only [regressao_linear_xy]
  rw [if_neg (by simp), if_neg (by simp), if_neg (by simp)]
  rw [if_neg (by rw [hxx, abs_of_pos (by norm_num)]; norm_num [eps])]
  rw [hxx, hxy]
  norm_num [media]

/-- C4: `regressao_linear` returns `DadosVazios` on the empty sequence,
`DadosInsuficientes` on a single element, and otherwise is exactly
`regressao_linear_xy` applied to the synthesized index sequence
`[0, 1, ..., n-1]` and `y`. -/
theorem regressao_linear_delegates (y : List ℚ) :
    (y = [] → regressao_linear y = .error .DadosVazios) ∧
    (y.length = 1 → regressao_linear y = .error .DadosInsuficientes) ∧
    (2 ≤ y.length → regressao_linear y = regressao_linear_xy (indices y.length) y) := by
  refine ⟨?_, ?_, ?_⟩
  · intro h
    simp only [regressao_linear, if_pos h]
  · intro h
    have hne : y ≠ [] := by
      intro he
      rw [he] at h
      simp at h
    simp only [regressao_linear]
    rw [if_neg hne, if_pos (by omega)]
  · intro h2
    have hne : y ≠ [] := by
      intro he
      rw [he] at h2
      simp at h2
    simp only [regressao_linear]
    rw [if_neg hne, if_neg (by omega)]

/-- Witness for C4: the three branches on `[]`, `[5]` and `[1, 2]`. -/
theorem regressao_linear_delegates_witness :
    regressao_linear [] = .error .DadosVazios ∧
    regressao_linear [5] = .error .DadosInsuficientes ∧
    regressao_linear [1, 2] = regressao_linear_xy (indices 2) [1, 2] := by
  exact ⟨(regressao_linear_delegates []).1 rfl,
    (regressao_linear_delegates [5]).2.1 (by simp),
    (regressao_linear_delegates [1, 2]).2.2 (by simp)⟩

/-- C7: `prever_valores inicio n a b` succeeds unconditionally with exactly
`n` elements, the `i`-th being `a * (inicio + i) + b`; in particular
`prever_valores 5 3 2 1 = [11, 13, 15]`. -/
theorem prever_valores_spec (inicio n_valores : ℕ) (a b : ℚ) :
    (prever_valores inicio n_valores a b).length = n_valores ∧
    (∀ i, i < n_valores →
      (prever_valores inicio n_valores a b).getD i 0 = a * ((inicio + i : ℕ) : ℚ) + b) ∧
    prever_valores 5 3 2 1 = [11, 13, 15] := by
  refine ⟨by simp [prever_valores], ?_, ?_⟩
  · intro i hi
    have hlen : i < (prever_valores inicio n_valores a b).length := by
      simpa [prever_valores] using hi
    rw [List.getD_eq_getElem _ _ hlen]
    simp only [prever_valores, List.getElem_map, List.getElem_range']
    push_cast
    ring
  · simp [prever_valores, List.range']
    norm_num

/-- Witness for C7: the projection at `inicio = 5`, `n = 3`, slope 2,
intercept 1 has length 3 and value 13 at index 1. -/
theorem prever_valores_spec_witness :
    (prever_valores 5 3 2 1).length = 3 ∧
    (prever_valores 5 3 2 1).getD 1 0 = 2 * ((5 + 1 : ℕ) : ℚ) + 1 := by
  exact ⟨(prever_valores_spec 5 3 2 1).1,
    (prever_valores_spec 5 3 2 1).2.1 1 (by norm_num)⟩

/-- C8: the bound method `prever_proximos_periodos` returns exactly the same
sequence as the free function `prever_valores` applied to the result's own
coefficients — the two projection entry points have identical semantics. -/
theorem prever_proximos_periodos_eq_prever_valores (r : ResultadoRegressao)
    (inicio n_periodos : ℕ) :
    r.prever_proximos_periodos inicio n_periodos =
      prever_valores inicio n_periodos r.inclinacao r.intercepto := rfl

/-- C5: for non-empty, equal-length inputs, `calcular_r2` fails with
`VarianciaZero` exactly when `|ss_tot| < f64::EPSILON`, otherwise returns
`1 - ss_res / ss_tot` (which may be negative — still a success), and on
identical sequences with non-degenerate `ss_tot` returns exactly 1. -/
theorem calcular_r2_spec (observed predicted : List ℚ)
    (ho : observed ≠ []) (hp : predicted ≠ []) (hlen : observed.length = predicted.length) :
    (calcular_r2 observed predicted = .error .VarianciaZero ↔ |ss_tot observed| < eps) ∧
    (eps ≤ |ss_tot observed| →
      calcular_r2 observed predicted = .ok (1 - ss_res observed predicted / ss_tot observed)) ∧
    (predicted = observed → eps ≤ |ss_tot observed| →
      calcular_r2 observed predicted = .ok 1) := by
  refine ⟨⟨?_, ?_⟩, ?_, ?_⟩
  · intro h
    by_contra hnot
    simp only [calcular_r2] at h
    rw [if_neg (by simp [ho, hp]), if_neg (by omega), if_neg hnot] at h
    exact absurd h (by simp)
  · intro h
    simp only [calcular_r2]
    rw [if_neg (by simp [ho, hp]), if_neg (by omega), if_pos h]
  · intro h
    simp only [calcular_r2]
    rw [if_neg (by simp [ho, hp]), if_neg (by omega), if_neg (not_lt.mpr h)]
  · intro hpe h
    subst hpe
    simp only [calcular_r2]
    rw [if_neg (by simp [ho]), if_neg (by omega), if_neg (not_lt.mpr h)]
    rw [ss_res_self]
    norm_num

/-- Witness for C5: a constant observed series is rejected, a bad fit yields
a negative R² as a success, and a perfect fit yields exactly 1. -/
theorem calcular_r2_spec_witness :
    calcular_r2 [7, 7] [1, 2] = .error .VarianciaZero ∧
    calcular_r2 [0, 4] [100, 100] = .ok (-2401) ∧
    calcular_r2 [1, 2] [1, 2] = .ok 1 := by
  refine ⟨?_, ?_, ?_⟩
  · exact (calcular_r2_spec [7, 7] [1, 2] (by simp) (by simp) (by simp)).1.mpr
      (by norm_num [ss_tot, media, eps])
  · have h8 : ss_tot [0, 4] = 8 := by norm_num [ss_tot, media]
    have h := (calcular_r2_spec [0, 4] [100, 100] (by simp) (by simp) (by simp)).2.1
      (by rw [h8]; norm_num [eps])
    rw [h, h8]
    norm_num [ss_res, List.zip_cons_cons]
  · exact (calcular_r2_spec [1, 2] [1, 2] (by simp) (by simp) (by simp)).2.2 rfl
      (by rw [show ss_tot [1, 2] = 1 / 2 by norm_num [ss_tot, media],
            abs_of_pos (by norm_num)]
          norm_num [eps])

/-- C6: the `mediana` field of a successful `calcular_estatisticas` result
equals, over an ascending-sorted copy of the data (a sorted permutation of
the input, which itself is left untouched in this pure model), the average
of the two middle elements for even length and the middle element for odd
length. -/
theorem calcular_estatisticas_mediana (dados : List ℚ) (s : EstatisticasDescritivas)
    (h : calcular_estatisticas dados = .ok s) :
    (dados.insertionSort (· ≤ ·)).Perm dados ∧
    List.Sorted (· ≤ ·) (dados.insertionSort (· ≤ ·)) ∧
    (dados.length % 2 = 0 →
      s.mediana = ((dados.insertionSort (· ≤ ·)).getD (dados.length / 2 - 1) 0
        + (dados.insertionSort (· ≤ ·)).getD (dados.length / 2) 0) / 2) ∧
    (dados.length % 2 = 1 →
      s.mediana = (dados.insertionSort (· ≤ ·)).getD (dados.length / 2) 0) := by
  have hlen : (dados.insertionSort (· ≤ ·)).length = dados.length :=
    List.length_insertionSort _ _
  simp only [calcular_estatisticas] at h
  split_ifs at h with hemp hp
  · simp only [Except.ok.injEq] at h
    subst h
    refine ⟨List.perm_insertionSort _ _, List.sorted_insertionSort _ _, ?_, ?_⟩
    · intro _
      simp only [hlen]
    · intro hodd
      rw [hlen] at hp
      omega
  · simp only [Except.ok.injEq] at h
    subst h
    refine ⟨List.perm_insertionSort _ _, List.sorted_insertionSort _ _, ?_, ?_⟩
    · intro heven
      rw [hlen] at hp
      omega
    · intro _
      simp only [hlen]

/-- Witness for C6: the median of `[3, 1, 2, 4]` (even length) and of
`[3, 1, 2]` (odd length), read off through the theorem. -/
theorem calcular_estatisticas_mediana_witness :
    (EstatisticasDescritivas.mediana
        { media := 5 / 2, mediana := 5 / 2, desvio_padrao := fsqrt (5 / 4),
          variancia := 5 / 4, minimo := 1, maximo := 4, amplitude := 3 } =
      ((([3, 1, 2, 4] : List ℚ).insertionSort (· ≤ ·)).getD
          (([3, 1, 2, 4] : List ℚ).length / 2 - 1) 0
        + (([3, 1, 2, 4] : List ℚ).insertionSort (· ≤ ·)).getD
          (([3, 1, 2, 4] : List ℚ).length / 2) 0) / 2) ∧
    (EstatisticasDescritivas.mediana
        { media := 2, mediana := 2, desvio_padrao := fsqrt (2 / 3),
          variancia := 2 / 3, minimo := 1, maximo := 3, amplitude := 2 } =
      (([3, 1, 2] : List ℚ).insertionSort (· ≤ ·)).getD
        (([3, 1, 2] : List ℚ).length / 2) 0) := by
  have hE : calcular_estatisticas [3, 1, 2, 4] = .ok
      { media := 5 / 2, mediana := 5 / 2, desvio_padrao := fsqrt (5 / 4),
        variancia := 5 / 4, minimo := 1, maximo := 4, amplitude := 3 } := by
    norm_num [calcular_estatisticas, List.insertionSort, List.orderedInsert,
      EstatisticasDescritivas.mk.injEq]
    intro hc
    simp at hc
  have hO : calcular_estatisticas [3, 1, 2] = .ok
      { media := 2, mediana := 2, desvio_padrao := fsqrt (2 / 3),
        variancia := 2 / 3, minimo := 1, maximo := 3, amplitude := 2 } := by
    norm_num [calcular_estatisticas, List.insertionSort, List.orderedInsert,
      EstatisticasDescritivas.mk.injEq]
    intro hc
    simp at hc
  exact ⟨(calcular_estatisticas_mediana [3, 1, 2, 4] _ hE).2.2.1 (by norm_num),
    (calcular_estatisticas_mediana [3, 1, 2] _ hO).2.2.2 (by norm_num)⟩

/-- C3: by-construction invariants.  A successful `calcular_estatisticas`
result has `amplitude = maximo - minimo`, `desvio_padrao = sqrt(variancia)`
and `variancia ≥ 0`; a successful `analise_completa` result has
`rmse = sqrt(mse)` and predicted values of the input's length with
`valores_previstos[i] = inclinacao * i + intercepto`. -/
theorem invariantes_por_construcao :
    (∀ dados s, calcular_estatisticas dados = .ok s →
      s.amplitude = s.maximo - s.minimo ∧ s.desvio_padrao = fsqrt s.variancia ∧
      0 ≤ s.variancia) ∧
    (∀ y r, analise_completa y = .ok r →
      r.rmse = fsqrt r.mse ∧ r.valores_previstos.length = y.length ∧
      ∀ i, i < y.length →
        r.valores_previstos.getD i 0 = r.inclinacao * (i : ℚ) + r.intercepto) := by
  constructor
  · intro dados s h
    simp only [calcular_estatisticas] at h
    split_ifs at h with hemp hp <;>
      · simp only [Except.ok.injEq] at h
        subst h
        refine ⟨rfl, rfl, div_nonneg (List.sum_nonneg ?_) (by positivity)⟩
        intro q hq
        simp only [List.mem_map] at hq
        obtain ⟨a, _, rfl⟩ := hq
        positivity
  · intro y r h
    simp only [analise_completa] at h
    split at h
    · exact absurd h (by simp)
    · split at h
      · exact absurd h (by simp)
      · split at h
        · exact absurd h (by simp)
        · split at h
          · exact absurd h (by simp)
          · simp only [Except.ok.injEq] at h
            subst h
            refine ⟨rfl, by simp, ?_⟩
            intro i hi
            rw [List.getD_eq_getElem _ _ (by simp [hi])]
            simp [List.getElem_map, List.getElem_range]

/-- Witness for C3: the invariants instantiated on `calcular_estatisticas
[1, 2]` and `analise_completa [1, 3]`. -/
theorem invariantes_por_construcao_witness :
    (∃ s, calcular_estatisticas [1, 2] = .ok s ∧ s.amplitude = s.maximo - s.minimo ∧
      s.desvio_padrao = fsqrt s.variancia ∧ 0 ≤ s.variancia) ∧
    (∃ r, analise_completa [1, 3] = .ok r ∧ r.rmse = fsqrt r.mse ∧
      r.valores_previstos.length = 2 ∧
      r.valores_previstos.getD 0 0 = r.inclinacao * ((0 : ℕ) : ℚ) + r.intercepto) := by
  constructor
  · have h : calcular_estatisticas [1, 2] = .ok
        { media := 3 / 2, mediana := 3 / 2, desvio_padrao := fsqrt (1 / 4),
          variancia := 1 / 4, minimo := 1, maximo := 2, amplitude := 1 } := by
      norm_num [calcular_estatisticas, List.insertionSort, List.orderedInsert,
        EstatisticasDescritivas.mk.injEq]
      intro hc
      simp at hc
    exact ⟨_, h, invariantes_por_construcao.1 [1, 2] _ h⟩
  · have hxx : sxx (indices 2) = 1 / 2 := by
      rw [sxx_indices 2 (by norm_num)]
      norm_num
    have hind : indices 2 = [0, 1] := by
      norm_num [indices, List.range_succ]
    have hfit : regressao_linear [1, 3] = .ok (2, 1) := by
      simp only [regressao_linear]
      rw [if_neg (by simp), if_neg (by simp)]
      show regressao_linear_xy (indices 2) [1, 3] = .ok (2, 1)
      simp only [regressao_linear_xy]
      rw [if_neg (by simp [hind]), if_neg (by simp [hind]), if_neg (by simp [hind])]
      rw [if_neg (by rw [hxx, abs_of_pos (by norm_num)]; norm_num [eps])]
      rw [hxx, hind]
      norm_num [sxy, media, List.zip_cons_cons]
    have hvp : (List.range ([1, 3] : List ℚ).length).map
        (fun x : ℕ => (2 : ℚ) * (x : ℚ) + 1) = [1, 3] := by
      norm_num [List.range_succ]
    have hst : ss_tot [1, 3] = 2 := by norm_num [ss_tot, media]
    have hr2 : calcular_r2 [1, 3] [1, 3] = .ok 1 := by
      simp only [calcular_r2]
      rw [if_neg (by simp), if_neg (by simp),
        if_neg (by rw [hst, abs_of_pos (by norm_num)]; norm_num [eps])]
      rw [ss_res_self]
      norm_num
    have hmse : calcular_mse [1, 3] [1, 3] = .ok 0 := by
      simp only [calcular_mse]
      rw [if_neg (by simp), if_neg (by simp)]
      norm_num [List.zip_cons_cons]
    have hmae : calcular_mae [1, 3] [1, 3] = .ok 0 := by
      simp only [calcular_mae]
      rw [if_neg (by simp), if_neg (by simp)]
      norm_num [List.zip_cons_cons]
    have h : analise_completa [1, 3] = .ok
        { inclinacao := 2, intercepto := 1, r_quadrado := 1, mse := 0, rmse := fsqrt 0,
          mae := 0, valores_previstos := [1, 3] } := by
      simp only [analise_completa, hfit, hvp, hr2, hmse, hmae]
    have hmain := invariantes_por_construcao.2 [1, 3] _ h
    exact ⟨_, h, hmain.1, hmain.2.1, hmain.2.2 0 (by norm_num)⟩

/-- C10: on the implicit-index path with at least 2 samples, the synthesized
index sequence has the input's length and centered sum of squares
`n(n²-1)/12 ≥ 1/2 > f64::EPSILON`, so `regressao_linear` can never return
`VarianciaZero` or `TamanhosDiferentes` — it succeeds outright. -/
theorem regressao_linear_sem_variancia_zero (y : List ℚ) (h2 : 2 ≤ y.length) :
    sxx (indices y.length) = (y.length : ℚ) * ((y.length : ℚ) ^ 2 - 1) / 12 ∧
    (1 : ℚ) / 2 ≤ sxx (indices y.length) ∧
    (indices y.length).length = y.length ∧
    regressao_linear y ≠ .error .VarianciaZero ∧
    regressao_linear y ≠ .error .TamanhosDiferentes ∧
    ∃ p, regressao_linear y = .ok p := by
  have hne : y ≠ [] := by
    intro he
    rw [he] at h2
    simp at h2
  have hn0 : y.length ≠ 0 := by omega
  have hform := sxx_indices y.length hn0
  have hge : (1 : ℚ) / 2 ≤ sxx (indices y.length) := by
    rw [hform]
    have hcast : (2 : ℚ) ≤ (y.length : ℚ) := by exact_mod_cast h2
    nlinarith [hcast, sq_nonneg ((y.length : ℚ) - 2), sq_nonneg ((y.length : ℚ) + 1)]
  have hpos : (0 : ℚ) < sxx (indices y.length) := lt_of_lt_of_le (by norm_num) hge
  have hok : regressao_linear y =
      .ok (sxy (indices y.length) y / sxx (indices y.length),
        media y - sxy (indices y.length) y / sxx (indices y.length) * media (indices y.length)) := by
    simp only [regressao_linear]
    rw [if_neg hne, if_neg (by omega)]
    simp only [regressao_linear_xy]
    rw [if_neg (by simp [indices, hne, hn0]), if_neg (by simp [indices]),
      if_neg (by simp only [indices, List.length_map, List.length_range]; omega),
      if_neg (by rw [abs_of_pos hpos]; exact not_lt.mpr (le_trans (by norm_num [eps]) hge))]
  exact ⟨hform, hge, by simp [indices], by simp [hok], by simp [hok], ⟨_, hok⟩⟩

/-- Witness for C10: the index path on `y = [1, 5]` has `Sxx = 1/2` and does
not fail with zero variance or mismatched lengths. -/
theorem regressao_linear_sem_variancia_zero_witness :
    sxx (indices ([1, 5] : List ℚ).length) =
      ((([1, 5] : List ℚ).length : ℚ)) * ((([1, 5] : List ℚ).length : ℚ) ^ 2 - 1) / 12 ∧
    (1 : ℚ) / 2 ≤ sxx (indices ([1, 5] : List ℚ).length) ∧
    regressao_linear [1, 5] ≠ .error .VarianciaZero ∧
    regressao_linear [1, 5] ≠ .error .TamanhosDiferentes := by
  have h := regressao_linear_sem_variancia_zero [1, 5] (by norm_num)
  exact ⟨h.1, h.2.1, h.2.2.2.1, h.2.2.2.2.1⟩
